import Mathlib

/-!
Verification of the contact identity resolver in `src/main.py`.

The source is a FastAPI service with a single endpoint `POST /identify`
(`identify_contact`, lines 43-89) over a SQLite `contacts` table.  We embed
the store as a list of contact records plus an id counter (SQLite assigns
increasing integer primary keys starting at 1), and the handler as a pure
function threading the store.

Modelling notes, each tied to the source:
* `Contact.email == request.email` in a SQLAlchemy filter compares with
  `IS NULL` semantics when `request.email` is `None`; this is exactly
  `Option` equality (`none == none` is true), so the query predicate
  `matchesReq` uses `BEq (Option String)`.
* Python truthiness (`if not request.email`, `if request.email and ...`,
  `if c.email`) treats both `None` and `""` as false; `truthy` models it.
* `list(set(xs))` deduplicates; its iteration order is Python's hash order
  and is left out of any theorem that depends on order; we use `List.dedup`
  as a deterministic stand-in for the dedup itself.
* Timestamps (`createdAt`, `updatedAt`) are modelled as a `Nat` clock held
  by the store; the handler never reads them.
* The SQLAlchemy session commit is the one transactional boundary; all
  `db.add` calls stage rows appearing only at commit.  `identifyRun` takes
  a `commitOk` flag: `identifyRun true` is the normal run, and
  `identifyRun false` models a store failure at the commit, which per the
  transactional contract applies none of the staged rows.
-/

namespace ContactService

/-- `linkPrecedence` column values: the source only ever writes the strings
`"primary"` and `"secondary"` (src/main.py lines 21, 53, 68, 72). -/
inductive LinkPrecedence where
  | primary
  | secondary
deriving DecidableEq, Repr, Inhabited

/-- The `Contact` ORM model (src/main.py lines 15-24). -/
structure Contact where
  id : Nat
  email : Option String
  phoneNumber : Option String
  linkedId : Option Nat
  linkPrecedence : LinkPrecedence
  createdAt : Nat
  updatedAt : Nat
  deletedAt : Option Nat
deriving DecidableEq, Repr, Inhabited

/-- The contacts table plus SQLite autoincrement id state and a clock for
timestamps.  Rows appear in insertion order, ids are assigned from
`nextId`. -/
structure Store where
  rows : List Contact
  nextId : Nat
  clock : Nat
deriving DecidableEq, Repr, Inhabited

/-- The request body after pydantic parsing (src/main.py lines 29-31):
each field is absent (`none`) or a string. -/
structure ContactRequest where
  email : Option String
  phoneNumber : Option String
deriving DecidableEq, Repr, Inhabited

/-- The JSON object returned by `identify_contact` (lines 57-62, 84-89). -/
structure ClusterView where
  primaryContactId : Nat
  emails : List String
  phoneNumbers : List String
  secondaryContactIds : List Nat
deriving DecidableEq, Repr, Inhabited

/-- Error outcomes of a request: the explicit `HTTPException(400, ...)` of
line 46, pydantic's 422 validation error, and a store-layer failure. -/
inductive ApiError where
  | badRequest (msg : String)
  | validationError
  | storeError
deriving DecidableEq, Repr, Inhabited

/-- Python truthiness of an optional string: `None` and `""` are falsy. -/
def truthy : Option String → Bool
  | none => false
  | some s => !s.isEmpty

/-- `[x] if x else []` (src/main.py lines 59-60). -/
def pyListOf : Option String → List String
  | none => []
  | some s => if s.isEmpty then [] else [s]

/-- The query filter of lines 48-50:
`(Contact.email == request.email) | (Contact.phoneNumber == request.phoneNumber)`.
SQLAlchemy turns `== None` into `IS NULL`, which is `Option` equality. -/
def matchesReq (req : ContactRequest) (c : Contact) : Bool :=
  c.email == req.email || c.phoneNumber == req.phoneNumber

/-- The rows returned by the query of lines 48-50, in table order. -/
def matched (req : ContactRequest) (s : Store) : List Contact :=
  s.rows.filter (matchesReq req)

/-- A freshly constructed `Contact(...)` row as the store materialises it on
flush: id from the autoincrement counter, timestamps from the clock,
`deletedAt` null. -/
def freshContact (s : Store) (email phoneNumber : Option String)
    (linkedId : Option Nat) (prec : LinkPrecedence) : Contact :=
  { id := s.nextId, email := email, phoneNumber := phoneNumber
  , linkedId := linkedId, linkPrecedence := prec
  , createdAt := s.clock, updatedAt := s.clock, deletedAt := none }

/-- Appending a flushed row to the table and advancing the id counter. -/
def insertRow (s : Store) (c : Contact) : Store :=
  { rows := s.rows ++ [c], nextId := s.nextId + 1, clock := s.clock }

/-- Line 64:
`next((c for c in contacts if c.linkPrecedence == "primary"), contacts[0])`. -/
def pickPrimary (contacts : List Contact) : Contact :=
  (contacts.find? fun c => c.linkPrecedence == .primary).getD
    (contacts.headD default)

/-- Line 67: `request.email and request.email not in [c.email for c in contacts]`.
The Python `in` compares the submitted string against each row's
email-or-`None` with `==`. -/
def needNewEmail (req : ContactRequest) (contacts : List Contact) : Bool :=
  truthy req.email && !(contacts.map (·.email)).contains req.email

/-- Line 71, same shape for the phone number. -/
def needNewPhone (req : ContactRequest) (contacts : List Contact) : Bool :=
  truthy req.phoneNumber && !(contacts.map (·.phoneNumber)).contains req.phoneNumber

/-- The response assembly of lines 84-89 from the re-queried `all_contacts`.
`list(set([c.email for c in all_contacts if c.email]))` filters truthy
values then deduplicates (dedup order modelled by `List.dedup`). -/
def buildView (pcId : Nat) (allContacts : List Contact) : ClusterView :=
  { primaryContactId := pcId
  , emails := ((allContacts.filterMap (·.email)).filter (fun e => !e.isEmpty)).dedup
  , phoneNumbers :=
      ((allContacts.filterMap (·.phoneNumber)).filter (fun p => !p.isEmpty)).dedup
  , secondaryContactIds :=
      (allContacts.filter fun c => c.linkPrecedence == .secondary).map (·.id) }

/-- Lines 52-62: no row matched, insert one primary row and answer with it. -/
def resolveNew (req : ContactRequest) (s : Store) : ClusterView × Store :=
  let newContact := freshContact s req.email req.phoneNumber none .primary
  ( { primaryContactId := newContact.id
    , emails := pyListOf newContact.email
    , phoneNumbers := pyListOf newContact.phoneNumber
    , secondaryContactIds := [] }
  , insertRow s newContact )

/-- Lines 64-89: some rows matched.  Both insert decisions read the original
`contacts` list; the re-query of lines 80-82 runs on the post-commit table. -/
def resolveExisting (req : ContactRequest) (s : Store) : ClusterView × Store :=
  let contacts := matched req s
  let primaryContact := pickPrimary contacts
  let s1 :=
    if needNewEmail req contacts then
      insertRow s (freshContact s req.email none (some primaryContact.id) .secondary)
    else s
  let s2 :=
    if needNewPhone req contacts then
      insertRow s1 (freshContact s1 none req.phoneNumber (some primaryContact.id) .secondary)
    else s1
  let allContacts := s2.rows.filter fun c =>
    c.id == primaryContact.id || c.linkedId == some primaryContact.id
  (buildView primaryContact.id allContacts, s2)

/-- The handler `identify_contact` (src/main.py lines 43-89) as a pure
function; the `ok` result carries the response and the post-commit store. -/
def identify_contact (req : ContactRequest) (db : Store) :
    Except ApiError (ClusterView × Store) :=
  if !truthy req.email && !truthy req.phoneNumber then
    .error (.badRequest "At least one of email or phoneNumber is required")
  else if (matched req db).isEmpty then
    .ok (resolveNew req db)
  else
    .ok (resolveExisting req db)

/-- Modelled from the spec: the transactional commit-or-rollback boundary
(`withTransaction` in spec section 6; in the source the SQLAlchemy session
commit at lines 55 and 76) is library behaviour, not code under `src/`.
Per the spec it applies all staged rows or, on a store failure, none.
`identifyRun true` is the normal run; `identifyRun false` forces the commit
to fail, yielding `storeError` and the untouched store. -/
def identifyRun (commitOk : Bool) (req : ContactRequest) (s : Store) :
    Except ApiError ClusterView × Store :=
  match identify_contact req s with
  | .error e => (.error e, s)
  | .ok (v, s') => if commitOk then (.ok v, s') else (.error .storeError, s)

/-- A request processed with a healthy store. -/
def identify (req : ContactRequest) (s : Store) :
    Except ApiError ClusterView × Store :=
  identifyRun true req s

/-- The store left behind by a request with a healthy store. -/
def identifyStore (req : ContactRequest) (s : Store) : Store :=
  (identify req s).2

/-- `constr(min_length=10, max_length=15)` for `phoneNumber`
(src/main.py line 31). -/
def phoneValid (p : String) : Bool :=
  decide (10 ≤ p.length) && decide (p.length ≤ 15)

/-- Stand-in for pydantic's `EmailStr` format check (src/main.py line 30);
the library's full RFC validation is external, and no theorem below depends
on which strings it accepts. -/
def emailFormatValid (e : String) : Bool :=
  !e.isEmpty && e.contains '@'

/-- Pydantic validation of the request body (src/main.py lines 29-31): each
present field must pass its field validator, otherwise FastAPI answers with
a 422 before the handler runs. -/
def validateRequest (email phoneNumber : Option String) :
    Except ApiError ContactRequest :=
  let emailOk := match email with
    | none => true
    | some e => emailFormatValid e
  let phoneOk := match phoneNumber with
    | none => true
    | some p => phoneValid p
  if emailOk && phoneOk then .ok ⟨email, phoneNumber⟩
  else .error .validationError

/-- The full request pipeline: pydantic validation, then the handler on a
healthy store. -/
def handleIdentify (email phoneNumber : Option String) (s : Store) :
    Except ApiError ClusterView × Store :=
  match validateRequest email phoneNumber with
  | .error e => (.error e, s)
  | .ok req => identify req s

/-! ### Concrete scenarios

`store3` is reached from the empty store by three successful requests and
exhibits the link chain: contact 3 is a secondary whose `linkedId` points at
contact 2, itself a secondary.  `mergeStore` holds two independent primaries
that a single request touches simultaneously. -/

/-- The empty store: no rows, SQLite ids start at 1. -/
def s0 : Store := ⟨[], 1, 0⟩

def req1 : ContactRequest := ⟨some "a@x.com", some "1111111111"⟩

/-- After `{email:"a@x.com", phoneNumber:"1111111111"}` on the empty store:
one primary, id 1. -/
def store1 : Store := identifyStore req1 s0

def req2 : ContactRequest := ⟨some "b@x.com", some "1111111111"⟩

/-- After `{email:"b@x.com", phoneNumber:"1111111111"}`: adds secondary id 2
(email `b@x.com`) linked to primary 1. -/
def store2 : Store := identifyStore req2 store1

def req3 : ContactRequest := ⟨some "b@x.com", some "2222222222"⟩

/-- After `{email:"b@x.com", phoneNumber:"2222222222"}`: the query matches
only secondary 2, so the new secondary id 3 is linked to 2, not to root 1. -/
def store3 : Store := identifyStore req3 store2

/-- The invariant claimed of `linkedId`: every set `linkedId` names a row
whose own `linkPrecedence` is primary. -/
def linkTargetIsPrimary (s : Store) : Bool :=
  s.rows.all fun c =>
    match c.linkedId with
    | none => true
    | some k => s.rows.any fun d => d.id == k && d.linkPrecedence == .primary

/-- Primary root B: later `createdAt`, lower id, holds only a phone. -/
def mergeB : Contact :=
  ⟨1, none, some "2222222222", none, .primary, 5, 5, none⟩

/-- Primary root A: earlier `createdAt`, higher id, holds only an email. -/
def mergeA : Contact :=
  ⟨2, some "a@x.com", none, none, .primary, 3, 3, none⟩

/-- A store with two independent primary roots. -/
def mergeStore : Store := ⟨[mergeB, mergeA], 3, 10⟩

/-- A request whose email matches root A and whose phone matches root B. -/
def mergeReq : ContactRequest := ⟨some "a@x.com", some "2222222222"⟩

/-! ### Well-formedness of a store

`wf` collects the structural facts the resolver itself maintains: row ids
are below the autoincrement counter and pairwise distinct, every stored
`linkedId` is below the counter, and a primary row has no `linkedId`. -/

def wf (s : Store) : Bool :=
  (s.rows.all fun c =>
      decide (c.id < s.nextId) &&
      (match c.linkedId with
        | none => true
        | some k => decide (k < s.nextId)) &&
      (match c.linkPrecedence with
        | .primary => c.linkedId == none
        | .secondary => true)) &&
  decide (s.rows.map fun c => c.id).Nodup

/-! ### The spec's notion of matching

Spec section 4.1 step 1 reads: contacts "whose `email` equals the given
email OR whose `phoneNumber` equals the given phone number (skip a
predicate side if the corresponding input is absent)".  This differs from
the code's query `matchesReq` exactly when a request field is absent: the
SQLAlchemy comparison of line 49 compiles `== None` to `IS NULL` and so
matches every row lacking that field, while the spec matches nothing on
that side. -/

/-- The spec's match predicate (section 4.1 step 1): an absent request
field matches no contact; a present field matches contacts holding exactly
that value. -/
def specMatches (req : ContactRequest) (c : Contact) : Bool :=
  (match req.email with
    | some e => c.email == some e
    | none => false) ||
  (match req.phoneNumber with
    | some p => c.phoneNumber == some p
    | none => false)

/-- A phone-only request. -/
def phoneReqA : ContactRequest := ⟨none, some "1111111111"⟩

/-- The store after one phone-only request on the empty store: a single
primary with no email. -/
def phoneOnlyStore : Store := identifyStore phoneReqA s0

/-- A second phone-only request carrying a different, unknown phone. -/
def phoneReqB : ContactRequest := ⟨none, some "2222222222"⟩

end ContactService

namespace ContactService

/-! ### Theorems -/

/-- C1: the resolver performs no merge when the email and phone match two
distinct primary roots.  Root A (id 2) has the earlier `createdAt`, so the
claim requires `primaryContactId = 2` and root B demoted to secondary with
`linkedId = 2`; the code instead answers with root B's id 1 and leaves the
store byte-for-byte unchanged, both roots still primary. -/
theorem merge_not_performed :
    mergeA.createdAt < mergeB.createdAt ∧
    identify mergeReq mergeStore =
      (.ok { primaryContactId := 1, emails := [], phoneNumbers := ["2222222222"]
           , secondaryContactIds := [] }, mergeStore) ∧
    (mergeStore.rows.map fun c => (c.id, c.linkPrecedence, c.linkedId)) =
      [(1, .primary, none), (2, .primary, none)] :=
  ⟨by decide, rfl, by decide⟩

/-- C2: the linked-to-a-primary invariant holds after two requests but is
broken by the third: contact 3's `linkedId` names contact 2, which is itself
secondary, because line 64 of the source falls back to `contacts[0]` without
resolving it to its primary root. -/
theorem link_chain_created :
    linkTargetIsPrimary store2 = true ∧
    linkTargetIsPrimary store3 = false ∧
    (store3.rows.map fun c => (c.id, c.linkedId, c.linkPrecedence)) =
      [(1, none, .primary), (2, some 1, .secondary), (3, some 2, .secondary)] :=
  ⟨by decide, by decide, by decide⟩

/-- C5: a request matching the single cluster rooted at contact 1 (through
its secondary, contact 2) inserts the new phone row with `linkedId = 2`,
the matched secondary's id, not the cluster root id 1. -/
theorem new_secondary_linked_to_nonroot :
    (store2.rows.map fun c => (c.id, c.linkedId, c.linkPrecedence)) =
      [(1, none, .primary), (2, some 1, .secondary)] ∧
    store3.rows = store2.rows ++
      [⟨3, none, some "2222222222", some 2, .secondary, 0, 0, none⟩] :=
  ⟨by decide, by decide⟩

/-- C7: a store failure at the transactional commit leaves the store
exactly as it was before the request, whatever the request and prior
state. -/
theorem commit_failure_leaves_store (req : ContactRequest) (s : Store) :
    (identifyRun false req s).2 = s := by
  unfold identifyRun
  cases h : identify_contact req s with
  | error e => rfl
  | ok p => obtain ⟨v, s'⟩ := p; rfl

/-- C8: a request in which both fields are absent or empty is answered with
the 400 error of line 46 and the store is untouched. -/
theorem missing_identifiers_rejected (req : ContactRequest) (s : Store)
    (he : truthy req.email = false) (hp : truthy req.phoneNumber = false) :
    identify req s =
      (.error (.badRequest "At least one of email or phoneNumber is required"), s) := by
  simp [identify, identifyRun, identify_contact, he, hp]

/-- C8 witness: the all-absent request on the empty store. -/
theorem missing_identifiers_rejected_witness :
    truthy (none : Option String) = false ∧
    identify ⟨none, none⟩ s0 =
      (.error (.badRequest "At least one of email or phoneNumber is required"), s0) :=
  ⟨rfl, missing_identifiers_rejected ⟨none, none⟩ s0 rfl rfl⟩

/-- C9: a phone number shorter than 10 or longer than 15 characters fails
pydantic validation; the handler never runs and the store is unchanged. -/
theorem malformed_phone_rejected (email : Option String) (p : String) (s : Store)
    (h : p.length < 10 ∨ 15 < p.length) :
    handleIdentify email (some p) s = (.error .validationError, s) := by
  have hp : phoneValid p = false := by
    rcases h with h | h <;> simp [phoneValid] <;> omega
  simp [handleIdentify, validateRequest, hp]

/-- C9 witness: a 3-character phone number on the empty store. -/
theorem malformed_phone_rejected_witness :
    ("123".length < 10 ∨ 15 < "123".length) ∧
    handleIdentify none (some "123") s0 = (.error .validationError, s0) :=
  ⟨by decide, malformed_phone_rejected none "123" s0 (by decide)⟩

/-- C10: the resolver is insert-only: the rows present before any request
form an unchanged prefix of the rows after it, so every pre-existing
contact keeps its email, phone, `linkedId` and `linkPrecedence`. -/
theorem insert_only (req : ContactRequest) (s : Store) :
    ∃ tail, (identify req s).2.rows = s.rows ++ tail := by
  unfold identify identifyRun identify_contact
  by_cases hg : (!truthy req.email && !truthy req.phoneNumber) = true
  · exact ⟨[], by simp [hg]⟩
  · rw [Bool.not_eq_true] at hg
    by_cases hm : (matched req s).isEmpty = true
    · exact ⟨[freshContact s req.email req.phoneNumber none .primary],
        by simp [hg, hm, resolveNew, insertRow]⟩
    · rw [Bool.not_eq_true] at hm
      unfold resolveExisting
      cases hE : needNewEmail req (matched req s) with
      | false =>
        cases hP : needNewPhone req (matched req s) with
        | false => exact ⟨[], by simp [hg, hm, hE, hP]⟩
        | true =>
          exact ⟨[freshContact s none req.phoneNumber
              (some (pickPrimary (matched req s)).id) .secondary],
            by simp [hg, hm, hE, hP, insertRow]⟩
      | true =>
        cases hP : needNewPhone req (matched req s) with
        | false =>
          exact ⟨[freshContact s req.email none
              (some (pickPrimary (matched req s)).id) .secondary],
            by simp [hg, hm, hE, hP, insertRow]⟩
        | true =>
          exact ⟨[freshContact s req.email none
                (some (pickPrimary (matched req s)).id) .secondary,
              freshContact
                (insertRow s (freshContact s req.email none
                  (some (pickPrimary (matched req s)).id) .secondary))
                none req.phoneNumber
                (some (pickPrimary (matched req s)).id) .secondary],
            by simp [hg, hm, hE, hP, insertRow]⟩

/-- Characterization of the no-match branch (supporting fact, not the C4
claim itself): when the code's own query of lines 48-50 returns no rows and
at least one field is non-empty, exactly one new primary row with the
submitted values and no `linkedId` is appended, and the response lists
exactly the submitted non-empty values with no secondaries.  The C4 claim's
"no stored contact matches" is the spec's stricter `specMatches`, under
which the claim fails; see the C4 theorem below. -/
theorem no_match_creates_primary (req : ContactRequest) (s : Store)
    (hne : truthy req.email = true ∨ truthy req.phoneNumber = true)
    (hmatch : matched req s = []) :
    identify req s =
      (.ok { primaryContactId := s.nextId
           , emails := pyListOf req.email
           , phoneNumbers := pyListOf req.phoneNumber
           , secondaryContactIds := [] }
      , { rows := s.rows ++
            [{ id := s.nextId, email := req.email, phoneNumber := req.phoneNumber
             , linkedId := none, linkPrecedence := .primary
             , createdAt := s.clock, updatedAt := s.clock, deletedAt := none }]
        , nextId := s.nextId + 1, clock := s.clock }) := by
  have hg : (!truthy req.email && !truthy req.phoneNumber) = false := by
    rcases hne with h | h <;> simp [h]
  simp [identify, identifyRun, identify_contact, hg, hmatch, resolveNew,
    freshContact, insertRow]

/-- Witness for the no-match branch characterization: the first request on
the empty store creates primary 1. -/
theorem no_match_creates_primary_witness :
    (truthy req1.email = true ∨ truthy req1.phoneNumber = true) ∧
    matched req1 s0 = [] ∧
    identify req1 s0 =
      (.ok { primaryContactId := 1, emails := ["a@x.com"]
           , phoneNumbers := ["1111111111"], secondaryContactIds := [] }
      , { rows := [⟨1, some "a@x.com", some "1111111111", none, .primary, 0, 0, none⟩]
        , nextId := 2, clock := 0 }) :=
  ⟨Or.inl rfl, rfl, no_match_creates_primary req1 s0 (Or.inl rfl) rfl⟩

end ContactService

namespace ContactService

/-! ### Well-formedness lemmas -/

/-- Every stored row's id is below the autoincrement counter. -/
theorem wf_id_lt {s : Store} (h : wf s = true) {c : Contact} (hc : c ∈ s.rows) :
    c.id < s.nextId := by
  simp only [wf, Bool.and_eq_true, List.all_eq_true, decide_eq_true_eq] at h
  exact (h.1 c hc).1.1

/-- Every stored `linkedId` is below the autoincrement counter. -/
theorem wf_linked_lt {s : Store} (h : wf s = true) {c : Contact} (hc : c ∈ s.rows)
    {k : Nat} (hk : c.linkedId = some k) : k < s.nextId := by
  simp only [wf, Bool.and_eq_true, List.all_eq_true, decide_eq_true_eq] at h
  have h2 := (h.1 c hc).1.2
  rw [hk] at h2
  simpa using h2

/-- A stored primary row has no `linkedId`. -/
theorem wf_primary_no_link {s : Store} (h : wf s = true) {c : Contact}
    (hc : c ∈ s.rows) (hp : c.linkPrecedence = .primary) : c.linkedId = none := by
  simp only [wf, Bool.and_eq_true, List.all_eq_true, decide_eq_true_eq] at h
  have h2 := (h.1 c hc).2
  rw [hp] at h2
  simpa using h2

/-- Stored ids are pairwise distinct. -/
theorem wf_nodup {s : Store} (h : wf s = true) :
    (s.rows.map fun c => c.id).Nodup := by
  simp only [wf, Bool.and_eq_true, decide_eq_true_eq] at h
  exact h.2

/-- Inserting a fresh row with the counter as its id preserves
well-formedness. -/
theorem wf_insertRow {s : Store} {c : Contact} (h : wf s = true)
    (hid : c.id = s.nextId)
    (hlink : ∀ k, c.linkedId = some k → k < s.nextId)
    (hprim : c.linkPrecedence = .primary → c.linkedId = none) :
    wf (insertRow s c) = true := by
  simp only [wf, Bool.and_eq_true, List.all_eq_true, decide_eq_true_eq,
    insertRow] at h ⊢
  obtain ⟨hall, hnodup⟩ := h
  refine ⟨?_, ?_⟩
  · intro d hd
    rw [List.mem_append] at hd
    rcases hd with hd | hd
    · have hda := hall d hd
      refine ⟨⟨Nat.lt_succ_of_lt hda.1.1, ?_⟩, hda.2⟩
      cases hl : d.linkedId with
      | none => simp
      | some k =>
        have h2 := hda.1.2
        rw [hl] at h2
        simp only [decide_eq_true_eq] at h2 ⊢
        omega
    · rw [List.mem_singleton] at hd
      subst hd
      refine ⟨⟨by omega, ?_⟩, ?_⟩
      · cases hl : d.linkedId with
        | none => simp
        | some k =>
          have := hlink k hl
          simp only [decide_eq_true_eq]
          omega
      · cases hp : d.linkPrecedence with
        | primary => simp [hprim hp]
        | secondary => rfl
  · rw [List.map_append]
    rw [List.nodup_append]
    refine ⟨hnodup, List.nodup_singleton _, fun a ha hb => ?_⟩
    rw [List.map_singleton, List.mem_singleton] at hb
    rw [List.mem_map] at ha
    obtain ⟨d, hd, rfl⟩ := ha
    have := (hall d hd).1.1
    omega

/-! ### Query and selection lemmas -/

/-- Effect of one insert on the match query. -/
theorem matched_insertRow (req : ContactRequest) (s : Store) (c : Contact) :
    matched req (insertRow s c) =
      matched req s ++ if matchesReq req c then [c] else [] := by
  simp only [matched, insertRow, List.filter_append]
  congr 1
  cases hm : matchesReq req c <;> simp [List.filter_cons, hm]

/-- A fresh row carrying the submitted email is returned by the query. -/
theorem matchesReq_fresh_email (req : ContactRequest) (s : Store)
    (l : Option Nat) (p : LinkPrecedence) :
    matchesReq req (freshContact s req.email none l p) = true := by
  simp [matchesReq, freshContact]

/-- A fresh row carrying the submitted phone is returned by the query. -/
theorem matchesReq_fresh_phone (req : ContactRequest) (s : Store)
    (l : Option Nat) (p : LinkPrecedence) :
    matchesReq req (freshContact s none req.phoneNumber l p) = true := by
  simp [matchesReq, freshContact]

/-- `pickPrimary` selects an element of a non-empty list. -/
theorem pickPrimary_mem {l : List Contact} (h : l ≠ []) : pickPrimary l ∈ l := by
  unfold pickPrimary
  cases hf : l.find? (fun c => c.linkPrecedence == .primary) with
  | some c => simpa using List.mem_of_find?_eq_some hf
  | none =>
    cases l with
    | nil => exact absurd rfl h
    | cons a t => simp

/-- Appending only secondary rows does not add a primary for `find?`. -/
theorem find?_primary_append_none {l t : List Contact}
    (ht : ∀ c ∈ t, c.linkPrecedence = .secondary) :
    (l ++ t).find? (fun c => c.linkPrecedence == .primary) =
      l.find? (fun c => c.linkPrecedence == .primary) := by
  rw [List.find?_append]
  have h0 : t.find? (fun c => c.linkPrecedence == .primary) = none := by
    rw [List.find?_eq_none]
    intro c hc
    simp [ht c hc]
  rw [h0, Option.or_none]

/-- Appending only secondary rows does not change the selected primary. -/
theorem pickPrimary_append_secondary {l t : List Contact} (h : l ≠ [])
    (ht : ∀ c ∈ t, c.linkPrecedence = .secondary) :
    pickPrimary (l ++ t) = pickPrimary l := by
  unfold pickPrimary
  rw [find?_primary_append_none ht]
  cases hf : l.find? (fun c => c.linkPrecedence == .primary) with
  | some c => rfl
  | none =>
    simp only [Option.getD_none]
    cases l with
    | nil => exact absurd rfl h
    | cons a t' => simp

/-- Membership makes `contains` true (the Python `in`). -/
theorem contains_of_mem {a : Option String} {l : List (Option String)}
    (h : a ∈ l) : l.contains a = true := by
  simpa [List.contains] using List.elem_eq_true_of_mem h

/-- The email-insert guard is false once the submitted email occurs in the
list (or is not truthy). -/
theorem needNewEmail_false (req : ContactRequest) (l : List Contact)
    (h : truthy req.email = true → req.email ∈ l.map (·.email)) :
    needNewEmail req l = false := by
  cases ht : truthy req.email with
  | false => simp [needNewEmail, ht]
  | true =>
    have hc := contains_of_mem (h ht)
    simp only [needNewEmail, ht, hc, Bool.not_true, Bool.and_false]

/-- The phone-insert guard is false once the submitted phone occurs in the
list (or is not truthy). -/
theorem needNewPhone_false (req : ContactRequest) (l : List Contact)
    (h : truthy req.phoneNumber = true → req.phoneNumber ∈ l.map (·.phoneNumber)) :
    needNewPhone req l = false := by
  cases ht : truthy req.phoneNumber with
  | false => simp [needNewPhone, ht]
  | true =>
    have hc := contains_of_mem (h ht)
    simp only [needNewPhone, ht, hc, Bool.not_true, Bool.and_false]

end ContactService

namespace ContactService

/-! ### Well-formedness is preserved by a request -/

/-- The selected primary of a non-empty match list is a stored row with id
below the counter. -/
theorem pickPrimary_id_lt {req : ContactRequest} {s : Store} (hwf : wf s = true)
    (hne : matched req s ≠ []) :
    (pickPrimary (matched req s)).id < s.nextId := by
  have hmem := pickPrimary_mem hne
  exact wf_id_lt hwf (List.mem_of_mem_filter hmem)

/-- Any request leaves the store well-formed. -/
theorem wf_identify (req : ContactRequest) (s : Store) (hwf : wf s = true) :
    wf ((identify req s).2) = true := by
  unfold identify identifyRun identify_contact
  by_cases hg : (!truthy req.email && !truthy req.phoneNumber) = true
  · simpa [hg] using hwf
  · rw [Bool.not_eq_true] at hg
    by_cases hm : (matched req s).isEmpty = true
    · simp only [hg, hm, Bool.false_eq_true, if_false, if_true, resolveNew]
      exact wf_insertRow hwf rfl
        (by intro k hk; simp [freshContact] at hk) (fun _ => rfl)
    · have hne : matched req s ≠ [] := by simpa using hm
      have hpc := pickPrimary_id_lt hwf hne
      simp only [hg, hm, Bool.false_eq_true, if_false, resolveExisting]
      cases hE : needNewEmail req (matched req s) with
      | false =>
        cases hP : needNewPhone req (matched req s) with
        | false => simpa [hE, hP] using hwf
        | true =>
          simp only [hE, hP, Bool.false_eq_true, if_false, if_true]
          exact wf_insertRow hwf rfl
            (by intro k hk; simp [freshContact] at hk; omega)
            (by intro hp; simp [freshContact] at hp)
      | true =>
        have hwf1 : wf (insertRow s (freshContact s req.email none
            (some (pickPrimary (matched req s)).id) .secondary)) = true :=
          wf_insertRow hwf rfl
            (by intro k hk; simp [freshContact] at hk; omega)
            (by intro hp; simp [freshContact] at hp)
        cases hP : needNewPhone req (matched req s) with
        | false => simpa [hE, hP] using hwf1
        | true =>
          simp only [hE, hP, if_true]
          refine wf_insertRow hwf1 rfl
            (by intro k hk; simp [freshContact] at hk; simp [insertRow]; omega)
            (by intro hp; simp [freshContact] at hp)

/-! ### At most one primary in a one-hop cluster -/

/-- A list of contacts with pairwise distinct ids, all equal to `k`, has at
most one element. -/
theorem length_le_one_of_const_ids {l : List Contact} {k : Nat}
    (hnd : (l.map fun c => c.id).Nodup) (hall : ∀ c ∈ l, c.id = k) :
    l.length ≤ 1 := by
  cases l with
  | nil => simp
  | cons a t =>
    cases t with
    | nil => simp
    | cons b u =>
      exfalso
      have ha : a.id = k := hall a (by simp)
      have hb : b.id = k := hall b (by simp)
      rw [List.map_cons, List.map_cons, List.nodup_cons] at hnd
      exact hnd.1 (by rw [ha, hb]; exact List.mem_cons_self _ _)

/-- In a well-formed store, the one-hop cluster query at any id `k` returns
at most one primary row. -/
theorem cluster_primary_count_le_one {s : Store} (hwf : wf s = true) (k : Nat) :
    ((s.rows.filter fun c => c.id == k || c.linkedId == some k).countP
      fun c => c.linkPrecedence == .primary) ≤ 1 := by
  rw [List.countP_eq_length_filter, List.filter_filter]
  refine length_le_one_of_const_ids (k := k)
    (List.Nodup.sublist (List.Sublist.map _ (List.filter_sublist _)) (wf_nodup hwf))
    ?_
  intro c hc
  rw [List.mem_filter] at hc
  obtain ⟨hcr, hcp⟩ := hc
  rw [Bool.and_eq_true, Bool.or_eq_true] at hcp
  obtain ⟨hprim, hdisj⟩ := hcp
  rw [beq_iff_eq] at hprim
  have hnone := wf_primary_no_link hwf hcr hprim
  rcases hdisj with h | h
  · exact beq_iff_eq.mp h
  · rw [hnone] at h
    simp at h

end ContactService

namespace ContactService

/-- Deduplicating the truthy-filtered singleton-or-empty email/phone list of
one row gives exactly the `[x] if x else []` list of the no-match branch. -/
theorem dedup_single (o : Option String) :
    (o.toList.filter fun e => !e.isEmpty).dedup = pyListOf o := by
  cases o with
  | none => rfl
  | some e =>
    cases he : e.isEmpty with
    | true => simp [Option.toList, List.filter_cons, he, pyListOf]
    | false =>
      simp [Option.toList, List.filter_cons, he, pyListOf,
        List.dedup_cons_of_not_mem]

/-- Resubmitting after the no-match branch reproduces the same response and
store. -/
theorem identify_twice_no_match (req : ContactRequest) (s : Store)
    (hwf : wf s = true)
    (hg : (!truthy req.email && !truthy req.phoneNumber) = false)
    (hm : matched req s = []) :
    identify req ((identify req s).2) = identify req s := by
  have hm0 : (matched req s).isEmpty = true := by rw [hm]; rfl
  have hid1 : identify req s = (.ok (resolveNew req s).1,
      insertRow s (freshContact s req.email req.phoneNumber none .primary)) := by
    simp [identify, identifyRun, identify_contact, hg, hm0, resolveNew]
  have hmatchN :
      matchesReq req (freshContact s req.email req.phoneNumber none .primary) = true := by
    simp [matchesReq, freshContact]
  have hm2 : matched req (insertRow s
        (freshContact s req.email req.phoneNumber none .primary)) =
      [freshContact s req.email req.phoneNumber none .primary] := by
    simp [matched_insertRow, hm, hmatchN]
  have hm2ne : (matched req (insertRow s
      (freshContact s req.email req.phoneNumber none .primary))).isEmpty = false := by
    rw [hm2]; rfl
  have hpick : pickPrimary [freshContact s req.email req.phoneNumber none .primary] =
      freshContact s req.email req.phoneNumber none .primary := by
    simp [pickPrimary, List.find?_cons, freshContact]
  have hE : needNewEmail req
      [freshContact s req.email req.phoneNumber none .primary] = false :=
    needNewEmail_false req _ (fun _ => by simp [freshContact])
  have hP : needNewPhone req
      [freshContact s req.email req.phoneNumber none .primary] = false :=
    needNewPhone_false req _ (fun _ => by simp [freshContact])
  have hfilter : ((insertRow s
        (freshContact s req.email req.phoneNumber none .primary)).rows.filter fun c =>
        c.id == (freshContact s req.email req.phoneNumber none .primary).id ||
        c.linkedId == some (freshContact s req.email req.phoneNumber none .primary).id) =
      [freshContact s req.email req.phoneNumber none .primary] := by
    simp only [insertRow, List.filter_append]
    have h1 : (s.rows.filter fun c =>
        c.id == (freshContact s req.email req.phoneNumber none .primary).id ||
        c.linkedId == some (freshContact s req.email req.phoneNumber none .primary).id)
        = [] := by
      rw [List.filter_eq_nil_iff]
      intro c hc hcontra
      simp only [Bool.or_eq_true, beq_iff_eq] at hcontra
      have hlt := wf_id_lt hwf hc
      have hN : (freshContact s req.email req.phoneNumber none .primary).id =
        s.nextId := rfl
      rcases hcontra with h | h
      · omega
      · have := wf_linked_lt hwf hc h
        omega
    rw [h1]
    simp [List.filter_cons]
  have heq : resolveExisting req (insertRow s
        (freshContact s req.email req.phoneNumber none .primary)) =
      (buildView (freshContact s req.email req.phoneNumber none .primary).id
        [freshContact s req.email req.phoneNumber none .primary],
       insertRow s (freshContact s req.email req.phoneNumber none .primary)) := by
    unfold resolveExisting
    simp only [hm2, hpick, hE, hP, Bool.false_eq_true, if_false, hfilter]
  have hic : identify_contact req (insertRow s
        (freshContact s req.email req.phoneNumber none .primary)) =
      .ok (buildView (freshContact s req.email req.phoneNumber none .primary).id
        [freshContact s req.email req.phoneNumber none .primary],
       insertRow s (freshContact s req.email req.phoneNumber none .primary)) := by
    simp only [identify_contact, hg, hm2ne, Bool.false_eq_true, if_false, heq]
  have hid2 : identify req (insertRow s
        (freshContact s req.email req.phoneNumber none .primary)) =
      (.ok (buildView (freshContact s req.email req.phoneNumber none .primary).id
        [freshContact s req.email req.phoneNumber none .primary]),
       insertRow s (freshContact s req.email req.phoneNumber none .primary)) := by
    unfold identify identifyRun
    rw [hic]
    rfl
  have hv : buildView (freshContact s req.email req.phoneNumber none .primary).id
      [freshContact s req.email req.phoneNumber none .primary] =
      (resolveNew req s).1 := by
    rw [show (resolveNew req s).1 =
      { primaryContactId := (freshContact s req.email req.phoneNumber none .primary).id
      , emails := pyListOf req.email, phoneNumbers := pyListOf req.phoneNumber
      , secondaryContactIds := [] } from rfl]
    unfold buildView
    rw [ClusterView.mk.injEq]
    refine ⟨rfl, ?_, ?_, ?_⟩
    · have hfm : List.filterMap (fun c => c.email)
          [freshContact s req.email req.phoneNumber none .primary] =
          req.email.toList := by
        cases hre : req.email <;>
          simp [List.filterMap_cons, freshContact, hre, Option.toList]
      rw [hfm, dedup_single]
    · have hfm : List.filterMap (fun c => c.phoneNumber)
          [freshContact s req.email req.phoneNumber none .primary] =
          req.phoneNumber.toList := by
        cases hrp : req.phoneNumber <;>
          simp [List.filterMap_cons, freshContact, hrp, Option.toList]
      rw [hfm, dedup_single]
    · simp [List.filter_cons, freshContact]
  rw [hid1]
  show identify req (insertRow s
    (freshContact s req.email req.phoneNumber none .primary)) = _
  rw [hid2, hv]

end ContactService

namespace ContactService

/-- The response of the matched branch, expressed by its parts. -/
theorem resolveExisting_fst (req : ContactRequest) (s : Store) :
    (resolveExisting req s).1 =
      buildView (pickPrimary (matched req s)).id
        ((resolveExisting req s).2.rows.filter fun c =>
          c.id == (pickPrimary (matched req s)).id ||
          c.linkedId == some (pickPrimary (matched req s)).id) := rfl

/-- A second call on a store that extends the matched first-call store by
already-matching, already-represented secondary rows takes the matched
branch, inserts nothing, and rebuilds the same view. -/
theorem second_call_eq (req : ContactRequest) (s sB : Store) (tail : List Contact)
    (hg : (!truthy req.email && !truthy req.phoneNumber) = false)
    (hne : matched req s ≠ [])
    (hrows : sB.rows = s.rows ++ tail)
    (htm : ∀ c ∈ tail, matchesReq req c = true)
    (hts : ∀ c ∈ tail, c.linkPrecedence = .secondary)
    (hE2 : needNewEmail req (matched req s ++ tail) = false)
    (hP2 : needNewPhone req (matched req s ++ tail) = false) :
    identify req sB =
      (.ok (buildView (pickPrimary (matched req s)).id
          (sB.rows.filter fun c =>
            c.id == (pickPrimary (matched req s)).id ||
            c.linkedId == some (pickPrimary (matched req s)).id)), sB) := by
  have hm2 : matched req sB = matched req s ++ tail := by
    rw [matched, hrows, List.filter_append]
    congr 1
    exact List.filter_eq_self.mpr htm
  have hpp : pickPrimary (matched req sB) = pickPrimary (matched req s) := by
    rw [hm2]
    exact pickPrimary_append_secondary hne hts
  have hm2ne : (matched req sB).isEmpty = false := by
    rw [hm2, List.isEmpty_eq_false]
    intro hnil
    exact hne (List.append_eq_nil.mp hnil).1
  have hEB : needNewEmail req (matched req sB) = false := by rw [hm2]; exact hE2
  have hPB : needNewPhone req (matched req sB) = false := by rw [hm2]; exact hP2
  have heq : resolveExisting req sB =
      (buildView (pickPrimary (matched req s)).id
        (sB.rows.filter fun c =>
          c.id == (pickPrimary (matched req s)).id ||
          c.linkedId == some (pickPrimary (matched req s)).id), sB) := by
    unfold resolveExisting
    simp only [hpp, hEB, hPB, Bool.false_eq_true, if_false]
  have hic : identify_contact req sB =
      .ok (buildView (pickPrimary (matched req s)).id
        (sB.rows.filter fun c =>
          c.id == (pickPrimary (matched req s)).id ||
          c.linkedId == some (pickPrimary (matched req s)).id), sB) := by
    simp only [identify_contact, hg, hm2ne, Bool.false_eq_true, if_false, heq]
  unfold identify identifyRun
  rw [hic]
  rfl

/-- Resubmitting after the matched branch reproduces the same response and
store. -/
theorem identify_twice_existing (req : ContactRequest) (s : Store)
    (hg : (!truthy req.email && !truthy req.phoneNumber) = false)
    (hne : matched req s ≠ []) :
    identify req ((identify req s).2) = identify req s := by
  have hm0 : (matched req s).isEmpty = false := by simpa using hne
  have hic1 : identify_contact req s = .ok (resolveExisting req s) := by
    simp only [identify_contact, hg, hm0, Bool.false_eq_true, if_false]
  have hid1 : identify req s =
      (.ok (resolveExisting req s).1, (resolveExisting req s).2) := by
    unfold identify identifyRun
    rw [hic1]
    rfl
  have hmemE : needNewEmail req (matched req s) = false →
      truthy req.email = true →
      req.email ∈ (matched req s).map (fun c => c.email) := by
    intro hE ht
    simp [needNewEmail, ht] at hE
    rw [List.mem_map]
    simpa using hE
  have hmemP : needNewPhone req (matched req s) = false →
      truthy req.phoneNumber = true →
      req.phoneNumber ∈ (matched req s).map (fun c => c.phoneNumber) := by
    intro hP ht
    simp [needNewPhone, ht] at hP
    rw [List.mem_map]
    simpa using hP
  rw [hid1]
  show identify req ((resolveExisting req s).2) =
    (.ok (resolveExisting req s).1, (resolveExisting req s).2)
  rw [resolveExisting_fst]
  cases hE : needNewEmail req (matched req s) with
  | false =>
    cases hP : needNewPhone req (matched req s) with
    | false =>
      have hsnd : (resolveExisting req s).2 = s := by
        unfold resolveExisting
        simp only [hE, hP, Bool.false_eq_true, if_false]
      rw [hsnd]
      exact second_call_eq req s s [] hg hne (by simp) (by intro c hc; cases hc)
        (by intro c hc; cases hc)
        (by rw [List.append_nil]; exact hE)
        (by rw [List.append_nil]; exact hP)
    | true =>
      have hsnd : (resolveExisting req s).2 = insertRow s
          (freshContact s none req.phoneNumber
            (some (pickPrimary (matched req s)).id) .secondary) := by
        unfold resolveExisting
        simp only [hE, hP, Bool.false_eq_true, if_false, if_true]
      rw [hsnd]
      refine second_call_eq req s _ [freshContact s none req.phoneNumber
          (some (pickPrimary (matched req s)).id) .secondary] hg hne rfl ?_ ?_ ?_ ?_
      · intro c hc
        rw [List.mem_singleton] at hc
        subst hc
        exact matchesReq_fresh_phone req s _ _
      · intro c hc
        rw [List.mem_singleton] at hc
        subst hc
        rfl
      · refine needNewEmail_false req _ (fun ht => ?_)
        rw [List.map_append]
        exact List.mem_append_left _ (hmemE hE ht)
      · refine needNewPhone_false req _ (fun ht => ?_)
        rw [List.map_append]
        refine List.mem_append_right _ ?_
        simp [freshContact]
  | true =>
    cases hP : needNewPhone req (matched req s) with
    | false =>
      have hsnd : (resolveExisting req s).2 = insertRow s
          (freshContact s req.email none
            (some (pickPrimary (matched req s)).id) .secondary) := by
        unfold resolveExisting
        simp only [hE, hP, Bool.false_eq_true, if_false, if_true]
      rw [hsnd]
      refine second_call_eq req s _ [freshContact s req.email none
          (some (pickPrimary (matched req s)).id) .secondary] hg hne rfl ?_ ?_ ?_ ?_
      · intro c hc
        rw [List.mem_singleton] at hc
        subst hc
        exact matchesReq_fresh_email req s _ _
      · intro c hc
        rw [List.mem_singleton] at hc
        subst hc
        rfl
      · refine needNewEmail_false req _ (fun ht => ?_)
        rw [List.map_append]
        refine List.mem_append_right _ ?_
        simp [freshContact]
      · refine needNewPhone_false req _ (fun ht => ?_)
        rw [List.map_append]
        exact List.mem_append_left _ (hmemP hP ht)
    | true =>
      have hsnd : (resolveExisting req s).2 = insertRow
          (insertRow s (freshContact s req.email none
            (some (pickPrimary (matched req s)).id) .secondary))
          (freshContact
            (insertRow s (freshContact s req.email none
              (some (pickPrimary (matched req s)).id) .secondary))
            none req.phoneNumber
            (some (pickPrimary (matched req s)).id) .secondary) := by
        unfold resolveExisting
        simp only [hE, hP, if_true]
      rw [hsnd]
      refine second_call_eq req s _
        [freshContact s req.email none
          (some (pickPrimary (matched req s)).id) .secondary,
         freshContact
          (insertRow s (freshContact s req.email none
            (some (pickPrimary (matched req s)).id) .secondary))
          none req.phoneNumber
          (some (pickPrimary (matched req s)).id) .secondary]
        hg hne (by simp [insertRow]) ?_ ?_ ?_ ?_
      · intro c hc
        rw [List.mem_cons, List.mem_singleton] at hc
        rcases hc with hc | hc <;> subst hc
        · exact matchesReq_fresh_email req s _ _
        · exact matchesReq_fresh_phone req _ _ _
      · intro c hc
        rw [List.mem_cons, List.mem_singleton] at hc
        rcases hc with hc | hc <;> subst hc <;> rfl
      · refine needNewEmail_false req _ (fun ht => ?_)
        rw [List.map_append]
        refine List.mem_append_right _ ?_
        simp [freshContact]
      · refine needNewPhone_false req _ (fun ht => ?_)
        rw [List.map_append]
        refine List.mem_append_right _ ?_
        simp [freshContact]

end ContactService

namespace ContactService

/-- C3: resubmitting the same (email, phone) pair is idempotent on any
well-formed store: the second call returns the identical response and
store (so it inserts no row), and in the successful first response's
cluster (the one-hop cluster of the returned `primaryContactId`) at most
one contact is primary. -/
theorem resubmission_idempotent (req : ContactRequest) (s : Store)
    (hwf : wf s = true) :
    identify req ((identify req s).2) = identify req s ∧
    ∀ v1 s1, identify req s = (.ok v1, s1) →
      ((s1.rows.filter fun c =>
          c.id == v1.primaryContactId ||
          c.linkedId == some v1.primaryContactId).countP
        fun c => c.linkPrecedence == .primary) ≤ 1 := by
  constructor
  · by_cases hg : (!truthy req.email && !truthy req.phoneNumber) = true
    · have hid : identify req s = (.error (.badRequest
          "At least one of email or phoneNumber is required"), s) := by
        simp [identify, identifyRun, identify_contact, hg]
      rw [hid]
      exact hid
    · rw [Bool.not_eq_true] at hg
      by_cases hm : matched req s = []
      · exact identify_twice_no_match req s hwf hg hm
      · exact identify_twice_existing req s hg hm
  · intro v1 s1 h1
    have hwf1 : wf s1 = true := by
      have hp := wf_identify req s hwf
      rw [h1] at hp
      exact hp
    exact cluster_primary_count_le_one hwf1 v1.primaryContactId

/-- C3 witness: the first request on the empty store, resubmitted. -/
theorem resubmission_idempotent_witness :
    wf s0 = true ∧
    (identify req1 ((identify req1 s0).2) = identify req1 s0 ∧
     ∀ v1 s1, identify req1 s0 = (.ok v1, s1) →
       ((s1.rows.filter fun c =>
           c.id == v1.primaryContactId ||
           c.linkedId == some v1.primaryContactId).countP
         fun c => c.linkPrecedence == .primary) ≤ 1) :=
  ⟨rfl, resubmission_idempotent req1 s0 rfl⟩

end ContactService

namespace ContactService

/-- C4: at a reachable store holding one email-less primary (produced by a
phone-only request), a second phone-only request with a new phone matches no
stored contact in the claim's sense (`specMatches` returns nothing: no email
is given and no row holds the new phone), yet the code does not create a new
primary: its `IS NULL` query matches the unrelated email-less row 1, and it
inserts a secondary (id 2, the new phone, `linkedId = 1`) and answers
`primaryContactId = 1` with a non-empty secondary list. -/
theorem absent_field_matches_null_rows :
    (phoneOnlyStore.rows.map fun c =>
        (c.id, c.email, c.phoneNumber, c.linkedId, c.linkPrecedence)) =
      [(1, none, some "1111111111", none, .primary)] ∧
    phoneOnlyStore.rows.filter (specMatches phoneReqB) = [] ∧
    identify phoneReqB phoneOnlyStore =
      (.ok { primaryContactId := 1, emails := []
           , phoneNumbers := ["1111111111", "2222222222"]
           , secondaryContactIds := [2] }
      , ⟨[⟨1, none, some "1111111111", none, .primary, 0, 0, none⟩,
          ⟨2, none, some "2222222222", some 1, .secondary, 0, 0, none⟩], 3, 0⟩) :=
  ⟨by decide, by decide, rfl⟩

end ContactService
